import Mathlib

/-!
Shallow embedding of the sensitivity calculation engine
(`src/lib/sensitivity-calculator.ts`) of the `sensi` repository.

JavaScript numbers are modelled as rationals (`ℚ`); `Math.round` is
`⌊x + 1/2⌋` (round half toward +∞, as in JS); `number | null` is
`Option ℚ`; JS truthiness of a numeric value `d` is `d ≠ 0`.
String-typed output is modelled with Lean `String`; the exact decimal
rendering of interpolated JS numbers is abstracted by `numStr` (its
content is never constrained by a verified property — only the integer
result fields, rendered identically in JS and Lean, are).
-/

namespace Sensi

/-- The `Playstyle` union type from the source. -/
inductive Playstyle where
  | freestyle | instaplayer | rusher | balanced | onetap | sniper
deriving DecidableEq, Repr

/-- The `PingLevel` union type from the source. -/
inductive PingLevel where
  | low | medium | high
deriving DecidableEq, Repr

/-- The `Platform` union type from the source. -/
inductive Platform where
  | android | ios | unknown
deriving DecidableEq, Repr

/-- The `SensitivityResult` interface: the six integer output channels. -/
structure SensitivityResult where
  general : ℤ
  redDot : ℤ
  scope2x : ℤ
  scope4x : ℤ
  awmScope : ℤ
  freeLook : ℤ
deriving DecidableEq, Repr

/-- The `CalculationInput` interface; `dpi : number | null` becomes `Option ℚ`. -/
structure CalculationInput where
  platform : Platform
  playstyle : Playstyle
  pingLevel : PingLevel
  screenSize : ℚ
  refreshRate : ℚ
  dpi : Option ℚ
  useCustomDpi : Bool
deriving DecidableEq, Repr

/-- JavaScript `Math.round`: round half toward +∞,
i.e. `⌊x + 1/2⌋`. -/
def jsRound (x : ℚ) : ℤ := ⌊x + 1/2⌋

/-- The `clamp` helper: `Math.min(200, Math.max(1, Math.round(value)))`. -/
def clamp (value : ℚ) : ℤ := min 200 (max 1 (jsRound value))

/-- One rational per channel; used for the base table and each
playstyle-modifier row. -/
structure ChannelValues where
  general : ℚ
  redDot : ℚ
  scope2x : ℚ
  scope4x : ℚ
  awmScope : ℚ
  freeLook : ℚ
deriving DecidableEq, Repr

/-- Base sensitivity table `BASE_SENSITIVITIES` from the source. -/
def BASE_SENSITIVITIES : ChannelValues :=
  { general := 165, redDot := 160, scope2x := 145, scope4x := 130
    awmScope := 110, freeLook := 185 }

/-- Playstyle modifier table `PLAYSTYLE_MODIFIERS`: one row of six channel
multipliers per playstyle. -/
def PLAYSTYLE_MODIFIERS : Playstyle → ChannelValues
  | .freestyle =>
    { general := 1.22, redDot := 1.20, scope2x := 1.15, scope4x := 1.10
      awmScope := 1.05, freeLook := 1.08 }
  | .instaplayer =>
    { general := 1.18, redDot := 1.15, scope2x := 1.10, scope4x := 1.05
      awmScope := 1.0, freeLook := 1.05 }
  | .rusher =>
    { general := 1.12, redDot := 1.08, scope2x := 1.05, scope4x := 1.02
      awmScope := 0.98, freeLook := 1.03 }
  | .balanced =>
    { general := 1.03, redDot := 1.03, scope2x := 1.03, scope4x := 1.03
      awmScope := 1.03, freeLook := 1.03 }
  | .onetap =>
    { general := 1.0, redDot := 0.97, scope2x := 0.94, scope4x := 0.90
      awmScope := 0.85, freeLook := 1.0 }
  | .sniper =>
    { general := 0.95, redDot := 0.92, scope2x := 0.88, scope4x := 0.82
      awmScope := 0.75, freeLook := 0.95 }

/-- Ping modifier table `PING_MODIFIERS` from the source. -/
def PING_MODIFIERS : PingLevel → ℚ
  | .low => 0.95
  | .medium => 1.0
  | .high => 1.08

/-- Screen-size step function `getScreenSizeModifier`: inclusive upper bounds,
first match wins. -/
def getScreenSizeModifier (screenSize : ℚ) : ℚ :=
  if screenSize ≤ 5.5 then 1.08
  else if screenSize ≤ 6.0 then 1.04
  else if screenSize ≤ 6.5 then 1.0
  else if screenSize ≤ 7.0 then 0.96
  else 0.92

/-- Refresh-rate step function `getRefreshRateModifier` from the source. -/
def getRefreshRateModifier (refreshRate : ℚ) : ℚ :=
  if refreshRate ≤ 60 then 0.95
  else if refreshRate ≤ 90 then 1.0
  else if refreshRate ≤ 120 then 1.05
  else 1.08

/-- Android DPI modifier `getDpiModifier`: `Math.max(0.85, Math.min(1.15, 420 / dpi))`. -/
def getDpiModifier (dpi : ℚ) : ℚ :=
  max 0.85 (min 1.15 (420 / dpi))

/-- Fixed iOS modifier `getiOSModifier` from the source. -/
def getiOSModifier : ℚ := 0.92

/-- The `platformModifier` selection inside `calculateSensitivity`:
`1.0` by default; `getiOSModifier()` for iOS; for Android, the DPI
modifier when `dpi && (useCustomDpi || dpi > 0)` (JS truthiness of a
number is being non-null and non-zero). -/
def platformModifierOf (platform : Platform) (dpi : Option ℚ)
    (useCustomDpi : Bool) : ℚ :=
  match platform with
  | .ios => getiOSModifier
  | .android =>
    match dpi with
    | some d => if d ≠ 0 ∧ (useCustomDpi = true ∨ 0 < d) then getDpiModifier d else 1.0
    | none => 1.0
  | .unknown => 1.0

/-- The six pre-repair channel values of `calculateSensitivity`:
each base multiplied by the playstyle, ping, screen, refresh and
platform modifiers, then rounded and clamped to `[1, 200]`. -/
def preResult (input : CalculationInput) : SensitivityResult :=
  let playstyleModifiers := PLAYSTYLE_MODIFIERS input.playstyle
  let pingModifier := PING_MODIFIERS input.pingLevel
  let screenModifier := getScreenSizeModifier input.screenSize
  let refreshModifier := getRefreshRateModifier input.refreshRate
  let platformModifier :=
    platformModifierOf input.platform input.dpi input.useCustomDpi
  { general := clamp (BASE_SENSITIVITIES.general * playstyleModifiers.general *
      pingModifier * screenModifier * refreshModifier * platformModifier)
    redDot := clamp (BASE_SENSITIVITIES.redDot * playstyleModifiers.redDot *
      pingModifier * screenModifier * refreshModifier * platformModifier)
    scope2x := clamp (BASE_SENSITIVITIES.scope2x * playstyleModifiers.scope2x *
      pingModifier * screenModifier * refreshModifier * platformModifier)
    scope4x := clamp (BASE_SENSITIVITIES.scope4x * playstyleModifiers.scope4x *
      pingModifier * screenModifier * refreshModifier * platformModifier)
    awmScope := clamp (BASE_SENSITIVITIES.awmScope * playstyleModifiers.awmScope *
      pingModifier * screenModifier * refreshModifier * platformModifier)
    freeLook := clamp (BASE_SENSITIVITIES.freeLook * playstyleModifiers.freeLook *
      pingModifier * screenModifier * refreshModifier * platformModifier) }

/-- Main entry point `calculateSensitivity`: the pre-repair values, then the sequential
ordering-repair pass, then the final clamp of every channel. -/
def calculateSensitivity (input : CalculationInput) : SensitivityResult :=
  let result := preResult input
  let redDot1 := if result.redDot ≥ result.general then result.general - 1 else result.redDot
  let scope2x1 := if result.scope2x ≥ redDot1 then redDot1 - 1 else result.scope2x
  let scope4x1 := if result.scope4x ≥ scope2x1 then scope2x1 - 1 else result.scope4x
  let awmScope1 := if result.awmScope ≥ scope4x1 then scope4x1 - 1 else result.awmScope
  let freeLook1 := if result.freeLook > result.general then result.general else result.freeLook
  { general := clamp (result.general : ℚ)
    redDot := clamp (redDot1 : ℚ)
    scope2x := clamp (scope2x1 : ℚ)
    scope4x := clamp (scope4x1 : ℚ)
    awmScope := clamp (awmScope1 : ℚ)
    freeLook := clamp (freeLook1 : ℚ) }

/-- The input-validity assumption of the spec: positive screen size and
refresh rate, and `dpi` either null or positive. -/
def ValidInput (input : CalculationInput) : Prop :=
  0 < input.screenSize ∧ 0 < input.refreshRate ∧
    (∀ d, input.dpi = some d → 0 < d)

/-- Rendering of an interpolated JS number inside template text.  The exact
decimal formatting of JS is abstracted here; no verified property constrains
this text (the six integer result fields are rendered by `toString` on `ℤ`,
which agrees with JS for integers). -/
def numStr (q : ℚ) : String := toString q

/-- The `dpiLevel` ternary inside `generateExplanation`:
`dpi > 480 ? "high" : dpi < 360 ? "low" : "standard"`. -/
def dpiLevelOf (dpi : ℚ) : String :=
  if dpi > 480 then "high" else if dpi < 360 then "low" else "standard"

/-- Device/platform commentary of `generateExplanation`: text for iOS; text
for Android when `dpi` is truthy (non-null and non-zero); empty otherwise. -/
def deviceSection (input : CalculationInput) : String :=
  match input.platform with
  | .ios =>
    "**iOS Optimization:** Your " ++ numStr input.screenSize ++
      "\" iOS device has excellent touch stability. Sensitivities are optimized for smooth, consistent tracking which is ideal for one-taps and drag shots.\n\n"
  | .android =>
    match input.dpi with
    | some d =>
      if d ≠ 0 then
        "**Android DPI Adjustment:** Your device runs at " ++ numStr d ++
          " DPI (" ++ dpiLevelOf d ++ "). " ++
          (if dpiLevelOf d = "high" then
            "Higher DPI means touch input is more sensitive, so we\x27ve lowered the in-game sensitivity to compensate."
          else if dpiLevelOf d = "low" then
            "Lower DPI means touch input is less responsive, so we\x27ve increased sensitivity slightly."
          else
            "This is a standard DPI range, providing balanced performance.") ++ "\n\n"
      else ""
    | none => ""
  | .unknown => ""

/-- Screen-size commentary of `generateExplanation` (branches at 6.0 and 6.8). -/
def screenSection (input : CalculationInput) : String :=
  "**Screen Size (" ++ numStr input.screenSize ++ "\"):** " ++
    (if input.screenSize < 6.0 then
      "Compact screen detected. Slightly higher sensitivity helps with quick movements in limited space."
    else if input.screenSize > 6.8 then
      "Large screen detected. Lower sensitivity provides better precision on bigger displays."
    else
      "Standard screen size provides balanced control.") ++ "\n\n"

/-- Commentary text of the `refreshRate >= 120` branch of `generateExplanation`. -/
def refreshHighText : String :=
  "High refresh rate allows for more responsive controls. You can handle slightly higher sensitivities with smoother tracking."

/-- Commentary text of the `refreshRate >= 90` (90–119) branch of
`generateExplanation`. -/
def refreshMidText : String :=
  "Good refresh rate provides smooth gameplay. Sensitivities are optimized for this range."

/-- Commentary text of the fall-through 60 Hz branch of `generateExplanation`. -/
def refreshLowText : String :=
  "Standard 60Hz display. Conservative sensitivities ensure consistent control."

/-- The refresh-rate ternary of `generateExplanation`:
`refreshRate >= 120 ? high : refreshRate >= 90 ? mid : low`. -/
def refreshCommentary (refreshRate : ℚ) : String :=
  if refreshRate ≥ 120 then refreshHighText
  else if refreshRate ≥ 90 then refreshMidText
  else refreshLowText

/-- Refresh-rate commentary section of `generateExplanation`. -/
def refreshSection (input : CalculationInput) : String :=
  "**Refresh Rate (" ++ numStr input.refreshRate ++ "Hz):** " ++
    refreshCommentary input.refreshRate ++ "\n\n"

/-- The `playstyleDescriptions` lookup table of `generateExplanation`. -/
def playstyleDescriptions : Playstyle → String
  | .freestyle =>
    "**Freestyle Profile:** Maximum sensitivity for flashy plays and extreme speed. Perfect for players who love 360 flicks, fast drag shots, and unpredictable movement. Requires excellent finger control."
  | .instaplayer =>
    "**Instaplayer Profile:** Very high sensitivity for instant reactions. Designed for aggressive close-combat dominators who need lightning-fast target acquisition and quick scope-ins."
  | .rusher =>
    "**Rusher Profile:** High sensitivity for fast aggressive gameplay. Quick flicks and aggressive pushes will feel natural. Good for players who like to rush and fight up close."
  | .balanced =>
    "**Balanced Profile:** Well-rounded sensitivities that work for all situations. Good for players who adapt their playstyle mid-match. Smooth drag shots and consistent one-taps."
  | .onetap =>
    "**One-Tap/Headshot Profile:** Controlled sensitivities optimized for precise headshots. Lower scope values help land consistent one-taps. Ideal for ranked and competitive play."
  | .sniper =>
    "**Sniper Profile:** Very controlled scope sensitivities, especially for AWM. Designed for patient, accurate long-range gameplay with maximum precision."

/-- The `pingDescriptions` lookup table of `generateExplanation`. -/
def pingDescriptions : PingLevel → String
  | .low =>
    "**Low Ping (0-40ms):** Excellent connection! Lower sensitivity compensation applied since your inputs register instantly."
  | .medium =>
    "**Medium Ping (41-80ms):** Moderate latency. Sensitivities are at baseline for this range."
  | .high =>
    "**High Ping (81+ms):** Higher latency detected. Slightly increased sensitivity helps compensate for delayed input registration."

/-- Closing summary of `generateExplanation`: echoes all six result values. -/
def summarySection (result : SensitivityResult) : String :=
  "---\n\n**Your Sensitivity Summary:**\n" ++
  "- General: " ++ toString result.general ++ " (highest for overall control)\n" ++
  "- Red Dot: " ++ toString result.redDot ++ " (close to mid-range tracking)\n" ++
  "- 2x Scope: " ++ toString result.scope2x ++ " (mid-range precision)\n" ++
  "- 4x Scope: " ++ toString result.scope4x ++ " (long-range control)\n" ++
  "- AWM Scope: " ++ toString result.awmScope ++ " (sniper precision)\n" ++
  "- Free Look: " ++ toString result.freeLook ++ " (situational awareness)\n\n"

/-- Final fixed paragraph of `generateExplanation`. -/
def testingGuide : String :=
  "**Testing Guide:** Head to the Training Ground and test these settings for 5-10 minutes. If movements feel too fast or slow, adjust each value by ±2 until comfortable."

/-- Narrative generator `generateExplanation`: the sections concatenated in
the fixed source order (device, screen, refresh, playstyle, ping, summary,
testing guide). -/
def generateExplanation (input : CalculationInput)
    (result : SensitivityResult) : String :=
  deviceSection input ++ screenSection input ++ refreshSection input ++
    playstyleDescriptions input.playstyle ++ "\n\n" ++
    pingDescriptions input.pingLevel ++ "\n\n" ++
    summarySection result ++ testingGuide

/-- Substring containment: `t` occurs contiguously inside `s`. -/
def ContainsSubstr (s t : String) : Prop := ∃ a b, s = a ++ (t ++ b)

/-- Reference input of the iOS scenario of the spec: platform ios, balanced,
medium ping, 6.7-inch screen, 60 Hz, no DPI. -/
def iosInput : CalculationInput :=
  { platform := .ios, playstyle := .balanced, pingLevel := .medium
    screenSize := 6.7, refreshRate := 60, dpi := none, useCustomDpi := false }

/-- Extreme-modifier input whose unconstrained channel values saturate the
200 cap, producing a pre-repair tie between redDot and general. -/
def tieInput : CalculationInput :=
  { platform := .android, playstyle := .balanced, pingLevel := .high
    screenSize := 5, refreshRate := 144, dpi := some 300, useCustomDpi := false }

/-- Out-of-domain input: unknown platform and a non-positive screen size,
exercising the documented fall-through leniency. -/
def edgeInput : CalculationInput :=
  { platform := .unknown, playstyle := .sniper, pingLevel := .low
    screenSize := -1, refreshRate := 60, dpi := none, useCustomDpi := false }

/-- Arbitrary concrete result record used to exercise the explanation
generator. -/
def sampleResult : SensitivityResult :=
  { general := 100, redDot := 95, scope2x := 90, scope4x := 85
    awmScope := 80, freeLook := 70 }

/-! ### Basic clamp lemmas -/

lemma one_le_clamp (v : ℚ) : 1 ≤ clamp v := by
  unfold clamp; omega

lemma clamp_le_two_hundred (v : ℚ) : clamp v ≤ 200 := by
  unfold clamp; omega

lemma clamp_intCast (n : ℤ) : clamp (n : ℚ) = min 200 (max 1 n) := by
  unfold clamp jsRound
  rw [Int.floor_int_add]
  norm_num

lemma clamp_mono {v w : ℚ} (h : v ≤ w) : clamp v ≤ clamp w := by
  unfold clamp jsRound
  have := Int.floor_le_floor (α := ℚ) (add_le_add_right h (1/2))
  omega

lemma two_le_clamp {v : ℚ} (h : (2 : ℚ) ≤ v) : 2 ≤ clamp v := by
  have h2 : (2 : ℤ) ≤ ⌊v + 1/2⌋ := by
    have : ((2 : ℤ) : ℚ) ≤ v + 1/2 := by push_cast; linarith
    exact Int.le_floor.mpr this
  unfold clamp jsRound
  omega

lemma preResult_in_range (input : CalculationInput) :
    (1 ≤ (preResult input).general ∧ (preResult input).general ≤ 200) ∧
    (1 ≤ (preResult input).redDot ∧ (preResult input).redDot ≤ 200) ∧
    (1 ≤ (preResult input).scope2x ∧ (preResult input).scope2x ≤ 200) ∧
    (1 ≤ (preResult input).scope4x ∧ (preResult input).scope4x ≤ 200) ∧
    (1 ≤ (preResult input).awmScope ∧ (preResult input).awmScope ≤ 200) ∧
    (1 ≤ (preResult input).freeLook ∧ (preResult input).freeLook ≤ 200) :=
  ⟨⟨one_le_clamp _, clamp_le_two_hundred _⟩, ⟨one_le_clamp _, clamp_le_two_hundred _⟩,
   ⟨one_le_clamp _, clamp_le_two_hundred _⟩, ⟨one_le_clamp _, clamp_le_two_hundred _⟩,
   ⟨one_le_clamp _, clamp_le_two_hundred _⟩, ⟨one_le_clamp _, clamp_le_two_hundred _⟩⟩

lemma iosInput_valid : ValidInput iosInput :=
  ⟨by norm_num [iosInput], by norm_num [iosInput], fun _ hd => nomatch hd⟩

/-! ### Claim theorems -/

/-- C1: for every valid `CalculationInput` (positive screen size and refresh
rate, `dpi` null or positive), each of the six fields of the
`SensitivityResult` returned by `calculateSensitivity` is an integer in the
inclusive range `[1, 200]`. -/
theorem calculateSensitivity_fields_in_range (input : CalculationInput)
    (h : ValidInput input) :
    (1 ≤ (calculateSensitivity input).general ∧ (calculateSensitivity input).general ≤ 200) ∧
    (1 ≤ (calculateSensitivity input).redDot ∧ (calculateSensitivity input).redDot ≤ 200) ∧
    (1 ≤ (calculateSensitivity input).scope2x ∧ (calculateSensitivity input).scope2x ≤ 200) ∧
    (1 ≤ (calculateSensitivity input).scope4x ∧ (calculateSensitivity input).scope4x ≤ 200) ∧
    (1 ≤ (calculateSensitivity input).awmScope ∧ (calculateSensitivity input).awmScope ≤ 200) ∧
    (1 ≤ (calculateSensitivity input).freeLook ∧ (calculateSensitivity input).freeLook ≤ 200) :=
  ⟨⟨one_le_clamp _, clamp_le_two_hundred _⟩, ⟨one_le_clamp _, clamp_le_two_hundred _⟩,
   ⟨one_le_clamp _, clamp_le_two_hundred _⟩, ⟨one_le_clamp _, clamp_le_two_hundred _⟩,
   ⟨one_le_clamp _, clamp_le_two_hundred _⟩, ⟨one_le_clamp _, clamp_le_two_hundred _⟩⟩

/-- Witness for C1: the iOS reference input of the spec is valid and its result
fields all lie in `[1, 200]`. -/
theorem calculateSensitivity_fields_in_range_witness :
    ValidInput iosInput ∧
    ((1 ≤ (calculateSensitivity iosInput).general ∧ (calculateSensitivity iosInput).general ≤ 200) ∧
    (1 ≤ (calculateSensitivity iosInput).redDot ∧ (calculateSensitivity iosInput).redDot ≤ 200) ∧
    (1 ≤ (calculateSensitivity iosInput).scope2x ∧ (calculateSensitivity iosInput).scope2x ≤ 200) ∧
    (1 ≤ (calculateSensitivity iosInput).scope4x ∧ (calculateSensitivity iosInput).scope4x ≤ 200) ∧
    (1 ≤ (calculateSensitivity iosInput).awmScope ∧ (calculateSensitivity iosInput).awmScope ≤ 200) ∧
    (1 ≤ (calculateSensitivity iosInput).freeLook ∧ (calculateSensitivity iosInput).freeLook ≤ 200)) :=
  ⟨iosInput_valid, calculateSensitivity_fields_in_range iosInput iosInput_valid⟩

/-- C2: for every valid input the result satisfies
`general ≥ redDot ≥ scope2x ≥ scope4x ≥ awmScope`, adjacent equality being
possible only when the lower channel sits at the floor value 1 (where the
repair subtraction is clamped back up), and `freeLook ≤ general`. -/
theorem calculateSensitivity_ordering (input : CalculationInput)
    (h : ValidInput input) :
    (calculateSensitivity input).redDot ≤ (calculateSensitivity input).general ∧
    (calculateSensitivity input).scope2x ≤ (calculateSensitivity input).redDot ∧
    (calculateSensitivity input).scope4x ≤ (calculateSensitivity input).scope2x ∧
    (calculateSensitivity input).awmScope ≤ (calculateSensitivity input).scope4x ∧
    ((calculateSensitivity input).redDot = (calculateSensitivity input).general →
      (calculateSensitivity input).redDot = 1) ∧
    ((calculateSensitivity input).scope2x = (calculateSensitivity input).redDot →
      (calculateSensitivity input).scope2x = 1) ∧
    ((calculateSensitivity input).scope4x = (calculateSensitivity input).scope2x →
      (calculateSensitivity input).scope4x = 1) ∧
    ((calculateSensitivity input).awmScope = (calculateSensitivity input).scope4x →
      (calculateSensitivity input).awmScope = 1) ∧
    (calculateSensitivity input).freeLook ≤ (calculateSensitivity input).general := by
  obtain ⟨⟨hG1, hG2⟩, ⟨hR1, hR2⟩, ⟨hS21, hS22⟩, ⟨hS41, hS42⟩, ⟨hA1, hA2⟩, ⟨hF1, hF2⟩⟩ :=
    preResult_in_range input
  simp only [calculateSensitivity, clamp_intCast]
  split_ifs <;> omega

/-- Witness for C2: the ordering invariant at the iOS reference input. -/
theorem calculateSensitivity_ordering_witness :
    ValidInput iosInput ∧
    ((calculateSensitivity iosInput).redDot ≤ (calculateSensitivity iosInput).general ∧
    (calculateSensitivity iosInput).scope2x ≤ (calculateSensitivity iosInput).redDot ∧
    (calculateSensitivity iosInput).scope4x ≤ (calculateSensitivity iosInput).scope2x ∧
    (calculateSensitivity iosInput).awmScope ≤ (calculateSensitivity iosInput).scope4x ∧
    ((calculateSensitivity iosInput).redDot = (calculateSensitivity iosInput).general →
      (calculateSensitivity iosInput).redDot = 1) ∧
    ((calculateSensitivity iosInput).scope2x = (calculateSensitivity iosInput).redDot →
      (calculateSensitivity iosInput).scope2x = 1) ∧
    ((calculateSensitivity iosInput).scope4x = (calculateSensitivity iosInput).scope2x →
      (calculateSensitivity iosInput).scope4x = 1) ∧
    ((calculateSensitivity iosInput).awmScope = (calculateSensitivity iosInput).scope4x →
      (calculateSensitivity iosInput).awmScope = 1) ∧
    (calculateSensitivity iosInput).freeLook ≤ (calculateSensitivity iosInput).general) :=
  ⟨iosInput_valid, calculateSensitivity_ordering iosInput iosInput_valid⟩

lemma playstyle_general_ge (p : Playstyle) :
    (0.95 : ℚ) ≤ (PLAYSTYLE_MODIFIERS p).general := by
  cases p <;> norm_num [PLAYSTYLE_MODIFIERS]

lemma ping_modifier_ge (p : PingLevel) : (0.95 : ℚ) ≤ PING_MODIFIERS p := by
  cases p <;> norm_num [PING_MODIFIERS]

lemma screen_modifier_ge (s : ℚ) : (0.92 : ℚ) ≤ getScreenSizeModifier s := by
  unfold getScreenSizeModifier
  split_ifs <;> norm_num

lemma refresh_modifier_ge (r : ℚ) : (0.95 : ℚ) ≤ getRefreshRateModifier r := by
  unfold getRefreshRateModifier
  split_ifs <;> norm_num

lemma platform_modifier_ge (pf : Platform) (dpi : Option ℚ) (b : Bool) :
    (0.85 : ℚ) ≤ platformModifierOf pf dpi b := by
  unfold platformModifierOf getiOSModifier getDpiModifier
  cases pf
  · cases dpi
    · norm_num
    · dsimp only
      split_ifs
      · exact le_max_left _ _
      · norm_num
  · norm_num
  · norm_num

lemma two_le_preGeneral (input : CalculationInput) :
    2 ≤ (preResult input).general := by
  have hpg := playstyle_general_ge input.playstyle
  have hpi := ping_modifier_ge input.pingLevel
  have hs := screen_modifier_ge input.screenSize
  have hr := refresh_modifier_ge input.refreshRate
  have hpm := platform_modifier_ge input.platform input.dpi input.useCustomDpi
  have h0pg : (0 : ℚ) ≤ (PLAYSTYLE_MODIFIERS input.playstyle).general := by linarith
  have h0pi : (0 : ℚ) ≤ PING_MODIFIERS input.pingLevel := by linarith
  have h0s : (0 : ℚ) ≤ getScreenSizeModifier input.screenSize := by linarith
  have h0r : (0 : ℚ) ≤ getRefreshRateModifier input.refreshRate := by linarith
  have h0pm : (0 : ℚ) ≤
      platformModifierOf input.platform input.dpi input.useCustomDpi := by linarith
  have key : (2 : ℚ) ≤ (165 : ℚ) * (PLAYSTYLE_MODIFIERS input.playstyle).general *
      PING_MODIFIERS input.pingLevel * getScreenSizeModifier input.screenSize *
      getRefreshRateModifier input.refreshRate *
      platformModifierOf input.platform input.dpi input.useCustomDpi := by
    calc (2 : ℚ) ≤ 165 * 0.95 * 0.95 * 0.92 * 0.95 * 0.85 := by norm_num
      _ ≤ _ := by gcongr
  exact two_le_clamp key

/-- C3: for every valid input whose pre-repair computation yields
`redDot ≥ general` (in particular a tie), the final result has
`redDot = general − 1`: the repair pass enforces strict descent. -/
theorem calculateSensitivity_pre_tie_strict (input : CalculationInput)
    (h : ValidInput input)
    (htie : (preResult input).general ≤ (preResult input).redDot) :
    (calculateSensitivity input).redDot = (calculateSensitivity input).general - 1 := by
  obtain ⟨⟨hG1, hG2⟩, ⟨hR1, hR2⟩, _, _, _, _⟩ := preResult_in_range input
  have h2 := two_le_preGeneral input
  simp only [calculateSensitivity, clamp_intCast]
  split_ifs <;> omega

lemma tieInput_valid : ValidInput tieInput := by
  refine ⟨by norm_num [tieInput], by norm_num [tieInput], ?_⟩
  intro d hd
  have hd3 : (300 : ℚ) = d := Option.some.inj hd
  rw [← hd3]
  norm_num

lemma tieInput_pre_tie :
    (preResult tieInput).general ≤ (preResult tieInput).redDot := by
  norm_num [preResult, clamp, jsRound, BASE_SENSITIVITIES, PLAYSTYLE_MODIFIERS,
    PING_MODIFIERS, getScreenSizeModifier, getRefreshRateModifier,
    getDpiModifier, platformModifierOf, tieInput]

/-- Witness for C3: an extreme-modifier Android input saturates both
`general` and `redDot` at the 200 cap pre-repair, and the final result has
`redDot = general − 1`. -/
theorem calculateSensitivity_pre_tie_strict_witness :
    ValidInput tieInput ∧
    (preResult tieInput).general ≤ (preResult tieInput).redDot ∧
    (calculateSensitivity tieInput).redDot = (calculateSensitivity tieInput).general - 1 :=
  ⟨tieInput_valid, tieInput_pre_tie,
   calculateSensitivity_pre_tie_strict tieInput tieInput_valid tieInput_pre_tie⟩

/-- C4: at the iOS reference input of the spec (ios, balanced, medium ping,
6.7-inch, 60 Hz, no DPI) the `general` field equals the rounded-and-clamped
product `165 × 1.03 × 1.0 × 0.96 × 0.95 × 0.92`; the exact locked value is
143 (the product is 142.594848, what the spec calls approximately 142). -/
theorem general_at_ios_reference :
    (calculateSensitivity iosInput).general =
      clamp (165 * 1.03 * 1.0 * 0.96 * 0.95 * 0.92) ∧
    (calculateSensitivity iosInput).general = 143 := by
  constructor <;>
    norm_num [calculateSensitivity, preResult, clamp, jsRound, BASE_SENSITIVITIES,
      PLAYSTYLE_MODIFIERS, PING_MODIFIERS, getScreenSizeModifier,
      getRefreshRateModifier, getiOSModifier, platformModifierOf, iosInput]

/-- Counterexample to C5: at the screen-size boundary 6.5 the winning
inclusive-upper-bound branch yields modifier 1.0 while the adjacent
larger-screen branch yields 0.96, so the winner is the higher-sensitivity
branch there, not the lower-sensitivity one. -/
theorem screen_boundary_winner_not_lower :
    getScreenSizeModifier 6.5 = 1.0 ∧ getScreenSizeModifier 6.6 = 0.96 ∧
    ¬ getScreenSizeModifier 6.5 ≤ getScreenSizeModifier 6.6 := by
  norm_num [getScreenSizeModifier]

/-- C5 amended: at every step-function boundary the branch with the
inclusive upper bound (evaluated in ascending order, first match wins) is
taken; for the refresh-rate boundaries that winning branch is the
lower-sensitivity one of the two adjacent branches, while for the
screen-size boundaries it is the higher-sensitivity one. -/
theorem step_function_boundaries :
    (getScreenSizeModifier 5.5 = 1.08 ∧ getScreenSizeModifier 5.6 = 1.04 ∧
      getScreenSizeModifier 5.6 < getScreenSizeModifier 5.5) ∧
    (getScreenSizeModifier 6.0 = 1.04 ∧ getScreenSizeModifier 6.1 = 1.0 ∧
      getScreenSizeModifier 6.1 < getScreenSizeModifier 6.0) ∧
    (getScreenSizeModifier 6.5 = 1.0 ∧ getScreenSizeModifier 6.6 = 0.96 ∧
      getScreenSizeModifier 6.6 < getScreenSizeModifier 6.5) ∧
    (getScreenSizeModifier 7.0 = 0.96 ∧ getScreenSizeModifier 7.1 = 0.92 ∧
      getScreenSizeModifier 7.1 < getScreenSizeModifier 7.0) ∧
    (getRefreshRateModifier 60 = 0.95 ∧ getRefreshRateModifier 61 = 1.0 ∧
      getRefreshRateModifier 60 < getRefreshRateModifier 61) ∧
    (getRefreshRateModifier 90 = 1.0 ∧ getRefreshRateModifier 91 = 1.05 ∧
      getRefreshRateModifier 90 < getRefreshRateModifier 91) ∧
    (getRefreshRateModifier 120 = 1.05 ∧ getRefreshRateModifier 121 = 1.08 ∧
      getRefreshRateModifier 120 < getRefreshRateModifier 121) := by
  norm_num [getScreenSizeModifier, getRefreshRateModifier]

lemma calc_general_eq (input : CalculationInput) :
    (calculateSensitivity input).general = min 200 (max 1 (preResult input).general) := by
  simp only [calculateSensitivity, clamp_intCast]

lemma preGeneral_mono_ping (input : CalculationInput) {p q : PingLevel}
    (hpq : PING_MODIFIERS p ≤ PING_MODIFIERS q) :
    (preResult { input with pingLevel := p }).general ≤
      (preResult { input with pingLevel := q }).general := by
  have hpg := playstyle_general_ge input.playstyle
  have hs := screen_modifier_ge input.screenSize
  have hr := refresh_modifier_ge input.refreshRate
  have hpm := platform_modifier_ge input.platform input.dpi input.useCustomDpi
  have h0pg : (0 : ℚ) ≤ (PLAYSTYLE_MODIFIERS input.playstyle).general := by linarith
  have h0s : (0 : ℚ) ≤ getScreenSizeModifier input.screenSize := by linarith
  have h0r : (0 : ℚ) ≤ getRefreshRateModifier input.refreshRate := by linarith
  have h0pm : (0 : ℚ) ≤
      platformModifierOf input.platform input.dpi input.useCustomDpi := by linarith
  apply clamp_mono
  dsimp only
  gcongr
  exact mul_nonneg (by norm_num [BASE_SENSITIVITIES]) h0pg

/-- C6: holding every other field fixed, the `general` output is
non-decreasing as `pingLevel` increases along low → medium → high. -/
theorem general_mono_in_ping (input : CalculationInput) (h : ValidInput input) :
    (calculateSensitivity { input with pingLevel := .low }).general ≤
      (calculateSensitivity { input with pingLevel := .medium }).general ∧
    (calculateSensitivity { input with pingLevel := .medium }).general ≤
      (calculateSensitivity { input with pingLevel := .high }).general := by
  have h1 := preGeneral_mono_ping input (p := .low) (q := .medium)
    (by norm_num [PING_MODIFIERS])
  have h2 := preGeneral_mono_ping input (p := .medium) (q := .high)
    (by norm_num [PING_MODIFIERS])
  simp only [calc_general_eq]
  omega

/-- Witness for C6: ping monotonicity of `general` at the iOS reference
input. -/
theorem general_mono_in_ping_witness :
    ValidInput iosInput ∧
    ((calculateSensitivity { iosInput with pingLevel := .low }).general ≤
      (calculateSensitivity { iosInput with pingLevel := .medium }).general ∧
    (calculateSensitivity { iosInput with pingLevel := .medium }).general ≤
      (calculateSensitivity { iosInput with pingLevel := .high }).general) :=
  ⟨iosInput_valid, general_mono_in_ping iosInput iosInput_valid⟩

lemma platformModifierOf_useCustomDpi (pf : Platform) (dpi : Option ℚ)
    (b₁ b₂ : Bool) (h : dpi = none ∨ ∃ d, dpi = some d ∧ 0 < d) :
    platformModifierOf pf dpi b₁ = platformModifierOf pf dpi b₂ := by
  cases pf
  · rcases h with rfl | ⟨d, rfl, hd⟩
    · rfl
    · show (if d ≠ 0 ∧ (b₁ = true ∨ 0 < d) then getDpiModifier d else 1.0) =
        (if d ≠ 0 ∧ (b₂ = true ∨ 0 < d) then getDpiModifier d else 1.0)
      rw [if_pos ⟨ne_of_gt hd, Or.inr hd⟩, if_pos ⟨ne_of_gt hd, Or.inr hd⟩]
  · rfl
  · rfl

/-- C9: two inputs identical except in `useCustomDpi`, with `dpi` null or
positive, produce identical results: under the input invariant of the spec the
`useCustomDpi` flag has no influence on the output. -/
theorem calculateSensitivity_useCustomDpi_irrelevant (input : CalculationInput)
    (b₁ b₂ : Bool)
    (h : input.dpi = none ∨ ∃ d, input.dpi = some d ∧ 0 < d) :
    calculateSensitivity { input with useCustomDpi := b₁ } =
      calculateSensitivity { input with useCustomDpi := b₂ } := by
  have hpre : preResult { input with useCustomDpi := b₁ } =
      preResult { input with useCustomDpi := b₂ } := by
    unfold preResult
    dsimp only
    rw [platformModifierOf_useCustomDpi input.platform input.dpi b₁ b₂ h]
  unfold calculateSensitivity
  rw [hpre]

/-- Witness for C9: flipping `useCustomDpi` at the tie input (dpi 300) does
not change the result. -/
theorem calculateSensitivity_useCustomDpi_irrelevant_witness :
    (tieInput.dpi = none ∨ ∃ d, tieInput.dpi = some d ∧ 0 < d) ∧
    calculateSensitivity { tieInput with useCustomDpi := true } =
      calculateSensitivity { tieInput with useCustomDpi := false } :=
  ⟨Or.inr ⟨300, rfl, by norm_num⟩,
   calculateSensitivity_useCustomDpi_irrelevant tieInput true false
     (Or.inr ⟨300, rfl, by norm_num⟩)⟩

/-- C7: the explanation always contains all six numeric result values
verbatim in its summary section, and at the exact boundary
`refreshRate = 120` the high-refresh commentary branch is selected, which
differs from the 90–119 commentary. -/
theorem generateExplanation_summary_verbatim (input : CalculationInput)
    (result : SensitivityResult) :
    ContainsSubstr (generateExplanation input result) (toString result.general) ∧
    ContainsSubstr (generateExplanation input result) (toString result.redDot) ∧
    ContainsSubstr (generateExplanation input result) (toString result.scope2x) ∧
    ContainsSubstr (generateExplanation input result) (toString result.scope4x) ∧
    ContainsSubstr (generateExplanation input result) (toString result.awmScope) ∧
    ContainsSubstr (generateExplanation input result) (toString result.freeLook) ∧
    refreshCommentary 120 = refreshHighText ∧ refreshHighText ≠ refreshMidText := by
  refine ⟨⟨?_, ?_, ?_⟩, ⟨?_, ?_, ?_⟩, ⟨?_, ?_, ?_⟩, ⟨?_, ?_, ?_⟩, ⟨?_, ?_, ?_⟩,
    ⟨?_, ?_, ?_⟩, by norm_num [refreshCommentary], by decide⟩
  case _ => exact deviceSection input ++ screenSection input ++ refreshSection input ++
    playstyleDescriptions input.playstyle ++ "\n\n" ++ pingDescriptions input.pingLevel ++
    "\n\n" ++ "---\n\n**Your Sensitivity Summary:**\n" ++ "- General: "
  case _ => exact " (highest for overall control)\n" ++ "- Red Dot: " ++
    toString result.redDot ++ " (close to mid-range tracking)\n" ++ "- 2x Scope: " ++
    toString result.scope2x ++ " (mid-range precision)\n" ++ "- 4x Scope: " ++
    toString result.scope4x ++ " (long-range control)\n" ++ "- AWM Scope: " ++
    toString result.awmScope ++ " (sniper precision)\n" ++ "- Free Look: " ++
    toString result.freeLook ++ " (situational awareness)\n\n" ++ testingGuide
  case _ => simp only [generateExplanation, summarySection, String.append_assoc]
  case _ => exact deviceSection input ++ screenSection input ++ refreshSection input ++
    playstyleDescriptions input.playstyle ++ "\n\n" ++ pingDescriptions input.pingLevel ++
    "\n\n" ++ "---\n\n**Your Sensitivity Summary:**\n" ++ "- General: " ++
    toString result.general ++ " (highest for overall control)\n" ++ "- Red Dot: "
  case _ => exact " (close to mid-range tracking)\n" ++ "- 2x Scope: " ++
    toString result.scope2x ++ " (mid-range precision)\n" ++ "- 4x Scope: " ++
    toString result.scope4x ++ " (long-range control)\n" ++ "- AWM Scope: " ++
    toString result.awmScope ++ " (sniper precision)\n" ++ "- Free Look: " ++
    toString result.freeLook ++ " (situational awareness)\n\n" ++ testingGuide
  case _ => simp only [generateExplanation, summarySection, String.append_assoc]
  case _ => exact deviceSection input ++ screenSection input ++ refreshSection input ++
    playstyleDescriptions input.playstyle ++ "\n\n" ++ pingDescriptions input.pingLevel ++
    "\n\n" ++ "---\n\n**Your Sensitivity Summary:**\n" ++ "- General: " ++
    toString result.general ++ " (highest for overall control)\n" ++ "- Red Dot: " ++
    toString result.redDot ++ " (close to mid-range tracking)\n" ++ "- 2x Scope: "
  case _ => exact " (mid-range precision)\n" ++ "- 4x Scope: " ++
    toString result.scope4x ++ " (long-range control)\n" ++ "- AWM Scope: " ++
    toString result.awmScope ++ " (sniper precision)\n" ++ "- Free Look: " ++
    toString result.freeLook ++ " (situational awareness)\n\n" ++ testingGuide
  case _ => simp only [generateExplanation, summarySection, String.append_assoc]
  case _ => exact deviceSection input ++ screenSection input ++ refreshSection input ++
    playstyleDescriptions input.playstyle ++ "\n\n" ++ pingDescriptions input.pingLevel ++
    "\n\n" ++ "---\n\n**Your Sensitivity Summary:**\n" ++ "- General: " ++
    toString result.general ++ " (highest for overall control)\n" ++ "- Red Dot: " ++
    toString result.redDot ++ " (close to mid-range tracking)\n" ++ "- 2x Scope: " ++
    toString result.scope2x ++ " (mid-range precision)\n" ++ "- 4x Scope: "
  case _ => exact " (long-range control)\n" ++ "- AWM Scope: " ++
    toString result.awmScope ++ " (sniper precision)\n" ++ "- Free Look: " ++
    toString result.freeLook ++ " (situational awareness)\n\n" ++ testingGuide
  case _ => simp only [generateExplanation, summarySection, String.append_assoc]
  case _ => exact deviceSection input ++ screenSection input ++ refreshSection input ++
    playstyleDescriptions input.playstyle ++ "\n\n" ++ pingDescriptions input.pingLevel ++
    "\n\n" ++ "---\n\n**Your Sensitivity Summary:**\n" ++ "- General: " ++
    toString result.general ++ " (highest for overall control)\n" ++ "- Red Dot: " ++
    toString result.redDot ++ " (close to mid-range tracking)\n" ++ "- 2x Scope: " ++
    toString result.scope2x ++ " (mid-range precision)\n" ++ "- 4x Scope: " ++
    toString result.scope4x ++ " (long-range control)\n" ++ "- AWM Scope: "
  case _ => exact " (sniper precision)\n" ++ "- Free Look: " ++
    toString result.freeLook ++ " (situational awareness)\n\n" ++ testingGuide
  case _ => simp only [generateExplanation, summarySection, String.append_assoc]
  case _ => exact deviceSection input ++ screenSection input ++ refreshSection input ++
    playstyleDescriptions input.playstyle ++ "\n\n" ++ pingDescriptions input.pingLevel ++
    "\n\n" ++ "---\n\n**Your Sensitivity Summary:**\n" ++ "- General: " ++
    toString result.general ++ " (highest for overall control)\n" ++ "- Red Dot: " ++
    toString result.redDot ++ " (close to mid-range tracking)\n" ++ "- 2x Scope: " ++
    toString result.scope2x ++ " (mid-range precision)\n" ++ "- 4x Scope: " ++
    toString result.scope4x ++ " (long-range control)\n" ++ "- AWM Scope: " ++
    toString result.awmScope ++ " (sniper precision)\n" ++ "- Free Look: "
  case _ => exact " (situational awareness)\n\n" ++ testingGuide
  case _ => simp only [generateExplanation, summarySection, String.append_assoc]

/-- C8: both entry points are total Lean functions by construction (the JS
code has no throw path), and for every input with `screenSize ≤ 0` the
screen-size step function takes the smallest-screen branch (modifier 1.08,
the `≤ 5.5` branch, since every comparison is `≤`) and
`calculateSensitivity` still returns a well-formed in-range value. -/
theorem calculateSensitivity_leniency_nonpositive_screen
    (input : CalculationInput) (h : input.screenSize ≤ 0) :
    getScreenSizeModifier input.screenSize = 1.08 ∧
    (1 ≤ (calculateSensitivity input).general ∧ (calculateSensitivity input).general ≤ 200) ∧
    (1 ≤ (calculateSensitivity input).redDot ∧ (calculateSensitivity input).redDot ≤ 200) ∧
    (1 ≤ (calculateSensitivity input).scope2x ∧ (calculateSensitivity input).scope2x ≤ 200) ∧
    (1 ≤ (calculateSensitivity input).scope4x ∧ (calculateSensitivity input).scope4x ≤ 200) ∧
    (1 ≤ (calculateSensitivity input).awmScope ∧ (calculateSensitivity input).awmScope ≤ 200) ∧
    (1 ≤ (calculateSensitivity input).freeLook ∧ (calculateSensitivity input).freeLook ≤ 200) ∧
    generateExplanation input (calculateSensitivity input) =
      deviceSection input ++ screenSection input ++ refreshSection input ++
        playstyleDescriptions input.playstyle ++ "\n\n" ++
        pingDescriptions input.pingLevel ++ "\n\n" ++
        summarySection (calculateSensitivity input) ++ testingGuide := by
  refine ⟨?_, ⟨one_le_clamp _, clamp_le_two_hundred _⟩,
    ⟨one_le_clamp _, clamp_le_two_hundred _⟩, ⟨one_le_clamp _, clamp_le_two_hundred _⟩,
    ⟨one_le_clamp _, clamp_le_two_hundred _⟩, ⟨one_le_clamp _, clamp_le_two_hundred _⟩,
    ⟨one_le_clamp _, clamp_le_two_hundred _⟩, rfl⟩
  unfold getScreenSizeModifier
  rw [if_pos (by linarith : input.screenSize ≤ (5.5 : ℚ))]

/-- Witness for C8: the leniency at a concrete input with screen size −1. -/
theorem calculateSensitivity_leniency_nonpositive_screen_witness :
    edgeInput.screenSize ≤ 0 ∧
    (getScreenSizeModifier edgeInput.screenSize = 1.08 ∧
    (1 ≤ (calculateSensitivity edgeInput).general ∧ (calculateSensitivity edgeInput).general ≤ 200) ∧
    (1 ≤ (calculateSensitivity edgeInput).redDot ∧ (calculateSensitivity edgeInput).redDot ≤ 200) ∧
    (1 ≤ (calculateSensitivity edgeInput).scope2x ∧ (calculateSensitivity edgeInput).scope2x ≤ 200) ∧
    (1 ≤ (calculateSensitivity edgeInput).scope4x ∧ (calculateSensitivity edgeInput).scope4x ≤ 200) ∧
    (1 ≤ (calculateSensitivity edgeInput).awmScope ∧ (calculateSensitivity edgeInput).awmScope ≤ 200) ∧
    (1 ≤ (calculateSensitivity edgeInput).freeLook ∧ (calculateSensitivity edgeInput).freeLook ≤ 200) ∧
    generateExplanation edgeInput (calculateSensitivity edgeInput) =
      deviceSection edgeInput ++ screenSection edgeInput ++ refreshSection edgeInput ++
        playstyleDescriptions edgeInput.playstyle ++ "\n\n" ++
        pingDescriptions edgeInput.pingLevel ++ "\n\n" ++
        summarySection (calculateSensitivity edgeInput) ++ testingGuide) :=
  ⟨by norm_num [edgeInput],
   calculateSensitivity_leniency_nonpositive_screen edgeInput
     (by norm_num [edgeInput])⟩

/-- C10: when the platform is unknown, or Android with `dpi` null or zero,
the explanation has no device/platform commentary at all and begins directly
with the screen-size section. -/
theorem generateExplanation_no_device_section (input : CalculationInput)
    (result : SensitivityResult)
    (h : input.platform = .unknown ∨
      (input.platform = .android ∧ (input.dpi = none ∨ input.dpi = some 0))) :
    deviceSection input = "" ∧
    generateExplanation input result =
      screenSection input ++ refreshSection input ++
        playstyleDescriptions input.playstyle ++ "\n\n" ++
        pingDescriptions input.pingLevel ++ "\n\n" ++
        summarySection result ++ testingGuide := by
  have hdev : deviceSection input = "" := by
    rcases h with hu | ⟨ha, hn | h0⟩
    · simp [deviceSection, hu]
    · simp [deviceSection, ha, hn]
    · simp [deviceSection, ha, h0]
  refine ⟨hdev, ?_⟩
  unfold generateExplanation
  rw [hdev, String.empty_append]

/-- Witness for C10: at the unknown-platform edge input and a concrete result
record, the explanation starts with the screen-size section. -/
theorem generateExplanation_no_device_section_witness :
    deviceSection edgeInput = "" ∧
    generateExplanation edgeInput sampleResult =
      screenSection edgeInput ++ refreshSection edgeInput ++
        playstyleDescriptions edgeInput.playstyle ++ "\n\n" ++
        pingDescriptions edgeInput.pingLevel ++ "\n\n" ++
        summarySection sampleResult ++ testingGuide :=
  generateExplanation_no_device_section edgeInput sampleResult (Or.inl rfl)

end Sensi
